import Mathlib

/-!
Verification of the request identity resolver of `magnum/api/auth.py`.

The module under study is a Pecan hook (`AuthInformationHook.before`) that
reads trusted proxy-injected HTTP headers and either attaches a
`RequestContext` to the request or rejects it by raising an exception, plus
a helper (`AuthHelper.is_endpoint_public`) that matches the request path
against the regex obtained by joining `PUBLIC_ENDPOINTS` with the bar
character.

Embedding choices:
* HTTP headers are association lists `List (String × String)`; Python
  `headers.get(k)` is a total lookup returning `Option String` (Python
  `dict.get` never raises), `headers.get(k, d)` supplies the default, and
  `k in headers` tests membership.
* The raised exceptions become an `AuthError` sum; `before` returns
  `Except AuthError Request`, where a success carries the (possibly
  updated) request state.
* `re.compile`/`re.match` from the Python standard library are modelled for
  the pattern language actually reachable from this module: a join of
  literal pattern strings by the bar character (alternation).  `re.match`
  is truthy iff the compiled regex matches some prefix of the subject
  string, anchored at the start.
* Python `str.split` on a separator and `str.strip` are modelled
  character-exactly (`''.split(',') == ['']`, strip removes surrounding
  whitespace).
* Module state (`CONF.enable_authentication`, `keystone_authtoken.auth_uri`)
  becomes an explicit `Config` record, and the `AUTH` helper built from
  `PUBLIC_ENDPOINTS` is passed explicitly; `AUTH` below is the instance the
  module actually constructs.
-/

deriving instance DecidableEq for Except

/-- Python `headers.get(k)`: the first binding of key `k`, if any. -/
def hGet (hs : List (String × String)) (k : String) : Option String :=
  (hs.find? (fun p => p.1 == k)).map (fun p => p.2)

/-- Python `headers.get(k, d)` with a string default `d`. -/
def hGetD (hs : List (String × String)) (k d : String) : String :=
  (hGet hs k).getD d

/-- Python `k in headers`. -/
def hContains (hs : List (String × String)) (k : String) : Bool :=
  (hGet hs k).isSome

/-- Regular expressions over characters, covering the pattern language the
module can build: literals joined by alternation. -/
inductive Regex where
  | eps : Regex
  | char : Char → Regex
  | seq : Regex → Regex → Regex
  | alt : Regex → Regex → Regex

/-- Full-match semantics of a regex on a character list. -/
def Regex.accepts : Regex → List Char → Bool
  | .eps, s => s.isEmpty
  | .char c, s => s == [c]
  | .seq r1 r2, s =>
      (List.range (s.length + 1)).any
        (fun n => r1.accepts (s.take n) && r2.accepts (s.drop n))
  | .alt r1 r2, s => r1.accepts s || r2.accepts s

/-- Python `re.match` truthiness: the regex matches some prefix of the
subject, anchored at position zero. -/
def Regex.reMatch (r : Regex) (s : List Char) : Bool :=
  (List.range (s.length + 1)).any (fun n => r.accepts (s.take n))

/-- Python `str.split(sep)` for a one-character separator, on character
lists; splitting the empty list yields one empty piece, as in Python. -/
def splitOnChar (c : Char) : List Char → List (List Char)
  | [] => [[]]
  | x :: xs =>
      let r := splitOnChar c xs
      if x == c then [] :: r
      else
        match r with
        | [] => [[x]]
        | y :: ys => (x :: y) :: ys

/-- A pattern string with no metacharacters compiles to the sequence of its
characters. -/
def parseLiteral (s : List Char) : Regex :=
  s.foldr (fun c r => Regex.seq (Regex.char c) r) Regex.eps

/-- `re.compile` for the reachable pattern language: alternatives separated
by the bar character, each a literal.  The empty pattern compiles to the
empty-string regex, which matches a prefix of everything. -/
def parsePattern (p : String) : Regex :=
  match (splitOnChar '|' p.toList).map parseLiteral with
  | [] => Regex.eps
  | r :: rs => rs.foldl Regex.alt r

/-- Python `str.strip()`: drop whitespace from both ends. -/
def pyStrip (s : String) : String :=
  String.mk (((s.toList.dropWhile Char.isWhitespace).reverse.dropWhile
    Char.isWhitespace).reverse)

/-- Python `str.split(c)` on strings. -/
def pySplit (s : String) (c : Char) : List String :=
  (splitOnChar c s.toList).map String.mk

/-- `PUBLIC_ENDPOINTS` as configured in `magnum/api/auth.py`: empty. -/
def PUBLIC_ENDPOINTS : List String := []

/-- `AuthHelper`, carrying the endpoint list its constructor compiles. -/
structure AuthHelper where
  public_endpoints : List String
deriving DecidableEq

/-- The pattern built in `AuthHelper.__init__`: the endpoint patterns
joined by the bar character. -/
def AuthHelper.endpoints_pattern (h : AuthHelper) : String :=
  String.intercalate "|" h.public_endpoints

/-- `AuthHelper.is_endpoint_public`: truthiness of
`self._public_endpoints_regexp.match(path)`. -/
def AuthHelper.is_endpoint_public (h : AuthHelper) (path : String) : Bool :=
  (parsePattern h.endpoints_pattern).reMatch path.toList

/-- The module-level `AUTH = AuthHelper()` instance. -/
def AUTH : AuthHelper := ⟨PUBLIC_ENDPOINTS⟩

/-- The configuration the module reads: the `enable_authentication` flag
and `keystone_authtoken.auth_uri`. -/
structure Config where
  enable_authentication : Bool
  auth_uri : String
deriving DecidableEq

/-- `magnum.common.context.RequestContext`, restricted to the keyword
arguments `before` passes to it. -/
structure RequestContext where
  auth_token : Option String
  auth_token_info : Option String
  user : String
  tenant : Option String
  domain : Option String
  user_domain : String
  project_domain : String
  user_name : String
  roles : List String
  auth_url : String
deriving DecidableEq

/-- The per-request state `before` reads and writes: path, headers, the
`keystone.token_info` environ entry, and the attached security context. -/
structure Request where
  path : String
  headers : List (String × String)
  keystone_token_info : Option String
  security_context : Option RequestContext
deriving DecidableEq

/-- The exceptions `before` can raise, one constructor per `raise` site:
`Exception('Not authorized')` at the missing `X-User-Id` check,
`Exception('Not authorized')` in the dead `except ValueError` handler of
the token lookup, and `Exception('Not authorized. Identity not
confirmed.')` at the identity-status check. -/
inductive AuthError where
  | notAuthorized : AuthError
  | noAuthToken : AuthError
  | identityNotConfirmed : AuthError
deriving DecidableEq

namespace AuthInformationHook

/-- `AuthInformationHook._get_roles`: use `X-Roles` when present, fall back
to the deprecated `X-Role` header (warning elided), then comma-split and
strip each piece. -/
def get_roles (hs : List (String × String)) : List String :=
  let roles :=
    if hContains hs "X-Roles" then hGetD hs "X-Roles" ""
    else hGetD hs "X-Role" ""
  (pySplit roles ',').map pyStrip

/-- The `try` block around the token lookup:
`headers.get('X-Auth-Token', headers.get('X-Storage-Token'))`.  Python
`dict.get` is total, so the computation always succeeds; the `Except`
wrapper records that the source wraps it in `try ... except ValueError`. -/
def getRecvAuthToken (hs : List (String × String)) : Except Unit (Option String) :=
  Except.ok
    (match hGet hs "X-Auth-Token" with
     | some t => some t
     | none => hGet hs "X-Storage-Token")

/-- `AuthInformationHook.before`, line by line.  Logging is elided; each
`raise` becomes the corresponding `AuthError`; `return` paths that attach
nothing yield the request unchanged. -/
def before (auth : AuthHelper) (conf : Config) (req : Request) :
    Except AuthError Request :=
  if conf.enable_authentication = false then Except.ok req
  else if auth.is_endpoint_public req.path then Except.ok req
  else
    match hGet req.headers "X-User-Id" with
    | none => Except.error AuthError.notAuthorized
    | some user_id =>
      let roles := get_roles req.headers
      let project_id := hGet req.headers "X-Project-Id"
      let user_name := hGetD req.headers "X-User-Name" ""
      let domain := hGet req.headers "X-Domain-Name"
      let project_domain_id := hGetD req.headers "X-Project-Domain-Id" ""
      let user_domain_id := hGetD req.headers "X-User-Domain-Id" ""
      match getRecvAuthToken req.headers with
      | Except.error _ => Except.error AuthError.noAuthToken
      | Except.ok recv_auth_token =>
        let auth_url :=
          match hGet req.headers "X-Auth-Url" with
          | some u => u
          | none => conf.auth_uri
        let auth_token_info := req.keystone_token_info
        let identity_status := hGet req.headers "X-Identity-Status"
        if identity_status == some "Confirmed" then
          let ctx : RequestContext :=
            { auth_token := recv_auth_token
              auth_token_info := auth_token_info
              user := user_id
              tenant := project_id
              domain := domain
              user_domain := user_domain_id
              project_domain := project_domain_id
              user_name := user_name
              roles := roles
              auth_url := auth_url }
          Except.ok { req with security_context := some ctx }
        else Except.error AuthError.identityNotConfirmed

end AuthInformationHook

/-! ## Helper lemmas on the branches of `before` -/

/-- The empty-string regex matches a prefix of every subject. -/
lemma Regex.reMatch_eps (s : List Char) : Regex.eps.reMatch s = true := by
  unfold Regex.reMatch
  apply List.any_eq_true.mpr
  exact ⟨0, List.mem_range.mpr (Nat.succ_pos _), rfl⟩

/-- The pattern `AUTH` compiles is the empty pattern, i.e. the empty-string
regex. -/
lemma parsePattern_AUTH : parsePattern AUTH.endpoints_pattern = Regex.eps := rfl

/-- Every path is public for the module-level `AUTH` helper. -/
lemma AUTH_is_endpoint_public (path : String) :
    AUTH.is_endpoint_public path = true := by
  unfold AuthHelper.is_endpoint_public
  rw [parsePattern_AUTH]
  exact Regex.reMatch_eps path.toList

/-- With authentication disabled, `before` returns the request unchanged. -/
lemma before_not_enabled (auth : AuthHelper) (conf : Config) (req : Request)
    (h : conf.enable_authentication = false) :
    AuthInformationHook.before auth conf req = Except.ok req := by
  unfold AuthInformationHook.before
  rw [h]
  simp

/-- With authentication enabled and a public path, `before` returns the
request unchanged. -/
lemma before_public (auth : AuthHelper) (conf : Config) (req : Request)
    (h1 : conf.enable_authentication = true)
    (h2 : auth.is_endpoint_public req.path = true) :
    AuthInformationHook.before auth conf req = Except.ok req := by
  unfold AuthInformationHook.before
  rw [h1, h2]
  simp

/-- On a non-public path with authentication enabled, a missing `X-User-Id`
header is rejected with the plain `Not authorized` error. -/
lemma before_no_user (auth : AuthHelper) (conf : Config) (req : Request)
    (h1 : conf.enable_authentication = true)
    (h2 : auth.is_endpoint_public req.path = false)
    (h3 : hGet req.headers "X-User-Id" = none) :
    AuthInformationHook.before auth conf req =
      Except.error AuthError.notAuthorized := by
  unfold AuthInformationHook.before
  rw [h1, h2, h3]
  simp

/-- On a non-public path with authentication enabled, a present
`X-User-Id` and a confirmed identity status produce the fully resolved
context, attached to the otherwise-unchanged request. -/
lemma before_confirmed (auth : AuthHelper) (conf : Config) (req : Request)
    (user_id : String)
    (h1 : conf.enable_authentication = true)
    (h2 : auth.is_endpoint_public req.path = false)
    (h3 : hGet req.headers "X-User-Id" = some user_id)
    (h4 : hGet req.headers "X-Identity-Status" = some "Confirmed") :
    AuthInformationHook.before auth conf req = Except.ok
      { req with security_context := some (
        { auth_token :=
            match hGet req.headers "X-Auth-Token" with
            | some t => some t
            | none => hGet req.headers "X-Storage-Token"
          auth_token_info := req.keystone_token_info
          user := user_id
          tenant := hGet req.headers "X-Project-Id"
          domain := hGet req.headers "X-Domain-Name"
          user_domain := hGetD req.headers "X-User-Domain-Id" ""
          project_domain := hGetD req.headers "X-Project-Domain-Id" ""
          user_name := hGetD req.headers "X-User-Name" ""
          roles := AuthInformationHook.get_roles req.headers
          auth_url :=
            match hGet req.headers "X-Auth-Url" with
            | some u => u
            | none => conf.auth_uri } : RequestContext) } := by
  unfold AuthInformationHook.before AuthInformationHook.getRecvAuthToken
  rw [h1, h2, h3]
  simp [h4]

/-- True exactly when `before` leaves the request with a security context
attached: the observable success-with-context outcome. -/
def contextAttached (auth : AuthHelper) (conf : Config) (req : Request) : Bool :=
  match AuthInformationHook.before auth conf req with
  | Except.ok r => r.security_context.isSome
  | Except.error _ => false

/-- The request was authenticated: authentication enabled, path not
public, `X-User-Id` present and `X-Identity-Status` exactly `Confirmed`. -/
def authenticatedB (auth : AuthHelper) (conf : Config) (req : Request) : Bool :=
  conf.enable_authentication && !auth.is_endpoint_public req.path &&
    (hGet req.headers "X-User-Id").isSome &&
    (hGet req.headers "X-Identity-Status" == some "Confirmed")

/-- On a non-public path with authentication enabled, a present
`X-User-Id` but an identity status other than `Confirmed` (absence
included) is rejected with the identity-not-confirmed error. -/
lemma before_not_confirmed (auth : AuthHelper) (conf : Config) (req : Request)
    (user_id : String)
    (h1 : conf.enable_authentication = true)
    (h2 : auth.is_endpoint_public req.path = false)
    (h3 : hGet req.headers "X-User-Id" = some user_id)
    (h4 : hGet req.headers "X-Identity-Status" ≠ some "Confirmed") :
    AuthInformationHook.before auth conf req =
      Except.error AuthError.identityNotConfirmed := by
  unfold AuthInformationHook.before AuthInformationHook.getRecvAuthToken
  rw [h1, h2, h3]
  simp [h4]

/-! ## Claims -/

/-- C2: with `PUBLIC_ENDPOINTS` empty as configured, joining zero patterns
yields the empty pattern, which matches every path, so
`AUTH.is_endpoint_public` is truthy on every path string and
`AuthInformationHook.before` skips identity resolution for every request,
returning it unchanged whenever authentication is enabled. -/
theorem C2_empty_endpoint_list_makes_every_path_public :
    (∀ path : String, AUTH.is_endpoint_public path = true) ∧
    (∀ (conf : Config) (req : Request), conf.enable_authentication = true →
      AuthInformationHook.before AUTH conf req = Except.ok req) := by
  refine ⟨AUTH_is_endpoint_public, ?_⟩
  intro conf req h
  exact before_public AUTH conf req h (AUTH_is_endpoint_public req.path)

/-- C2 witness: a concrete request on a concrete path with authentication
enabled is passed through unchanged by the configured hook. -/
theorem C2_witness :
    AUTH.is_endpoint_public "/v1/bays" = true ∧
    AuthInformationHook.before AUTH ⟨true, "http://auth"⟩
      ⟨"/v1/bays", [], none, none⟩ =
      Except.ok ⟨"/v1/bays", [], none, none⟩ :=
  ⟨C2_empty_endpoint_list_makes_every_path_public.1 "/v1/bays",
   C2_empty_endpoint_list_makes_every_path_public.2 ⟨true, "http://auth"⟩
     ⟨"/v1/bays", [], none, none⟩ rfl⟩

/-- C5: with authentication enabled on a non-public path, a request
without an `X-User-Id` header is rejected as unauthorized immediately, with
no context attached. -/
theorem C5_missing_user_id_rejected (auth : AuthHelper) (conf : Config)
    (req : Request)
    (h1 : conf.enable_authentication = true)
    (h2 : auth.is_endpoint_public req.path = false)
    (h3 : hGet req.headers "X-User-Id" = none) :
    AuthInformationHook.before auth conf req =
      Except.error AuthError.notAuthorized :=
  before_no_user auth conf req h1 h2 h3

/-- C5 witness: a concrete header-free request on a non-public path is
rejected. -/
theorem C5_witness :
    AuthInformationHook.before ⟨["/public"]⟩ ⟨true, "http://auth"⟩
      ⟨"/v1/bays", [], none, none⟩ =
      Except.error AuthError.notAuthorized :=
  C5_missing_user_id_rejected ⟨["/public"]⟩ ⟨true, "http://auth"⟩
    ⟨"/v1/bays", [], none, none⟩ rfl (by decide) rfl

/-- C7: with authentication administratively disabled, every request is
passed through unchanged — no context attached, no error — regardless of
its headers or path. -/
theorem C7_auth_disabled_passthrough (auth : AuthHelper) (conf : Config)
    (req : Request)
    (h : conf.enable_authentication = false) :
    AuthInformationHook.before auth conf req = Except.ok req :=
  before_not_enabled auth conf req h

/-- C7 witness: a concrete request with identity headers present is still
passed through unchanged when authentication is disabled. -/
theorem C7_witness :
    AuthInformationHook.before ⟨["/public"]⟩ ⟨false, "http://auth"⟩
      ⟨"/v1/bays", [("X-User-Id", "u1")], none, none⟩ =
      Except.ok ⟨"/v1/bays", [("X-User-Id", "u1")], none, none⟩ :=
  C7_auth_disabled_passthrough ⟨["/public"]⟩ ⟨false, "http://auth"⟩
    ⟨"/v1/bays", [("X-User-Id", "u1")], none, none⟩ rfl

/-- C8: with authentication enabled, a request whose path matches the
public-endpoint set skips identity resolution entirely and passes through
unchanged — unauthenticated, unrejected — even with all identity headers
missing. -/
theorem C8_public_path_skips_resolution (auth : AuthHelper) (conf : Config)
    (req : Request)
    (h1 : conf.enable_authentication = true)
    (h2 : auth.is_endpoint_public req.path = true) :
    AuthInformationHook.before auth conf req = Except.ok req :=
  before_public auth conf req h1 h2

/-- C8 witness: a concrete request with no headers on a path matching a
configured public pattern is passed through unchanged. -/
theorem C8_witness :
    AuthInformationHook.before ⟨["/v1/bays"]⟩ ⟨true, "http://auth"⟩
      ⟨"/v1/bays", [], none, none⟩ =
      Except.ok ⟨"/v1/bays", [], none, none⟩ :=
  C8_public_path_skips_resolution ⟨["/v1/bays"]⟩ ⟨true, "http://auth"⟩
    ⟨"/v1/bays", [], none, none⟩ rfl (by decide)

/-- C3: with authentication enabled on a non-public path, a request whose
headers are exactly `X-User-Id: u1`, `X-Identity-Status: Confirmed`,
`X-Roles: "admin, member"` resolves successfully and attaches a context
with user `u1` and roles `["admin", "member"]`. -/
theorem C3_confirmed_example_resolves (auth : AuthHelper) (conf : Config)
    (path : String) (info : Option String)
    (h1 : conf.enable_authentication = true)
    (h2 : auth.is_endpoint_public path = false) :
    ∃ ctx : RequestContext,
      AuthInformationHook.before auth conf
        ⟨path, [("X-User-Id", "u1"), ("X-Identity-Status", "Confirmed"),
                ("X-Roles", "admin, member")], info, none⟩ =
        Except.ok ⟨path, [("X-User-Id", "u1"), ("X-Identity-Status", "Confirmed"),
                ("X-Roles", "admin, member")], info, some ctx⟩ ∧
      ctx.user = "u1" ∧ ctx.roles = ["admin", "member"] := by
  refine ⟨_, before_confirmed auth conf
    ⟨path, [("X-User-Id", "u1"), ("X-Identity-Status", "Confirmed"),
            ("X-Roles", "admin, member")], info, none⟩ "u1" h1 h2 rfl rfl,
    rfl, ?_⟩
  rfl

/-- C3 witness: the example at a concrete non-public path and concrete
configuration. -/
theorem C3_witness :
    ∃ ctx : RequestContext,
      AuthInformationHook.before ⟨["/public"]⟩ ⟨true, "http://auth"⟩
        ⟨"/v1/bays", [("X-User-Id", "u1"), ("X-Identity-Status", "Confirmed"),
                ("X-Roles", "admin, member")], none, none⟩ =
        Except.ok ⟨"/v1/bays", [("X-User-Id", "u1"), ("X-Identity-Status", "Confirmed"),
                ("X-Roles", "admin, member")], none, some ctx⟩ ∧
      ctx.user = "u1" ∧ ctx.roles = ["admin", "member"] :=
  C3_confirmed_example_resolves ⟨["/public"]⟩ ⟨true, "http://auth"⟩
    "/v1/bays" none rfl (by decide)

/-- C4: with authentication enabled on a non-public path and `X-User-Id`
present, any `X-Identity-Status` other than exactly `Confirmed` — absence
included — is rejected as unauthorized, with no context attached. -/
theorem C4_unconfirmed_identity_rejected (auth : AuthHelper) (conf : Config)
    (req : Request) (uid : String)
    (h1 : conf.enable_authentication = true)
    (h2 : auth.is_endpoint_public req.path = false)
    (h3 : hGet req.headers "X-User-Id" = some uid)
    (h4 : hGet req.headers "X-Identity-Status" ≠ some "Confirmed") :
    AuthInformationHook.before auth conf req =
      Except.error AuthError.identityNotConfirmed :=
  before_not_confirmed auth conf req uid h1 h2 h3 h4

/-- C4 witness: a concrete request carrying `X-User-Id` but an `Invalid`
identity status is rejected. -/
theorem C4_witness :
    AuthInformationHook.before ⟨["/public"]⟩ ⟨true, "http://auth"⟩
      ⟨"/v1/bays", [("X-User-Id", "u1"), ("X-Identity-Status", "Invalid")],
       none, none⟩ =
      Except.error AuthError.identityNotConfirmed :=
  C4_unconfirmed_identity_rejected ⟨["/public"]⟩ ⟨true, "http://auth"⟩
    ⟨"/v1/bays", [("X-User-Id", "u1"), ("X-Identity-Status", "Invalid")],
     none, none⟩ "u1" rfl (by decide) rfl (by decide)

/-- C6: when `X-Roles` carries `s`, the role list is `s` comma-split with
every piece stripped; when `X-Roles` is absent and the deprecated `X-Role`
carries `s`, the same split applies and the two header paths yield
identical role lists. -/
theorem C6_role_header_paths_equivalent (s : String)
    (hsA hsB : List (String × String))
    (hA : hGet hsA "X-Roles" = some s)
    (hB1 : hContains hsB "X-Roles" = false)
    (hB2 : hGet hsB "X-Role" = some s) :
    AuthInformationHook.get_roles hsA = (pySplit s ',').map pyStrip ∧
    AuthInformationHook.get_roles hsB = AuthInformationHook.get_roles hsA := by
  have hAc : hContains hsA "X-Roles" = true := by
    unfold hContains
    rw [hA]
    rfl
  have e1 : AuthInformationHook.get_roles hsA = (pySplit s ',').map pyStrip := by
    unfold AuthInformationHook.get_roles hGetD
    rw [hAc, hA]
    simp
  have e2 : AuthInformationHook.get_roles hsB = (pySplit s ',').map pyStrip := by
    unfold AuthInformationHook.get_roles hGetD
    rw [hB1, hB2]
    simp
  exact ⟨e1, e2.trans e1.symm⟩

/-- C6 witness: both header layouts for the value `"admin, member"`
produce `["admin", "member"]`. -/
theorem C6_witness :
    AuthInformationHook.get_roles [("X-Roles", "admin, member")] =
      (pySplit "admin, member" ',').map pyStrip ∧
    AuthInformationHook.get_roles [("X-Role", "admin, member")] =
      AuthInformationHook.get_roles [("X-Roles", "admin, member")] :=
  C6_role_header_paths_equivalent "admin, member"
    [("X-Roles", "admin, member")] [("X-Role", "admin, member")]
    rfl (by decide) rfl

/-- C9: with authentication enabled on a non-public path, resolution has
exactly two outcomes: a context attached to the otherwise-unchanged
request, or a rejection carrying an error and leaving no request state
behind. -/
theorem C9_exactly_two_outcomes (auth : AuthHelper) (conf : Config)
    (req : Request)
    (h1 : conf.enable_authentication = true)
    (h2 : auth.is_endpoint_public req.path = false) :
    (∃ ctx : RequestContext, AuthInformationHook.before auth conf req =
        Except.ok { req with security_context := some ctx }) ∨
    (∃ e : AuthError, AuthInformationHook.before auth conf req =
        Except.error e) := by
  cases hu : hGet req.headers "X-User-Id" with
  | none => exact Or.inr ⟨_, before_no_user auth conf req h1 h2 hu⟩
  | some uid =>
    by_cases hs : hGet req.headers "X-Identity-Status" = some "Confirmed"
    · exact Or.inl ⟨_, before_confirmed auth conf req uid h1 h2 hu hs⟩
    · exact Or.inr ⟨_, before_not_confirmed auth conf req uid h1 h2 hu hs⟩

/-- C9 witness: the dichotomy at a concrete authenticated request. -/
theorem C9_witness :
    (∃ ctx : RequestContext, AuthInformationHook.before ⟨["/public"]⟩
        ⟨true, "http://auth"⟩
        ⟨"/v1/bays", [("X-User-Id", "u1"), ("X-Identity-Status", "Confirmed")],
         none, none⟩ =
        Except.ok { path := "/v1/bays",
                    headers := [("X-User-Id", "u1"),
                                ("X-Identity-Status", "Confirmed")],
                    keystone_token_info := none,
                    security_context := some ctx }) ∨
    (∃ e : AuthError, AuthInformationHook.before ⟨["/public"]⟩
        ⟨true, "http://auth"⟩
        ⟨"/v1/bays", [("X-User-Id", "u1"), ("X-Identity-Status", "Confirmed")],
         none, none⟩ = Except.error e) :=
  C9_exactly_two_outcomes ⟨["/public"]⟩ ⟨true, "http://auth"⟩
    ⟨"/v1/bays", [("X-User-Id", "u1"), ("X-Identity-Status", "Confirmed")],
     none, none⟩ rfl (by decide)

/-- C10: the `No auth token found` rejection branch is unreachable — the
header lookup is total and cannot raise — so `before` never rejects for a
missing token, and when both `X-Auth-Token` and `X-Storage-Token` are
absent an otherwise-authenticated request still gets a context, with
`auth_token = none`. -/
theorem C10_no_token_branch_unreachable :
    (∀ (auth : AuthHelper) (conf : Config) (req : Request),
      AuthInformationHook.before auth conf req ≠
        Except.error AuthError.noAuthToken) ∧
    (∀ (auth : AuthHelper) (conf : Config) (req : Request) (uid : String),
      conf.enable_authentication = true →
      auth.is_endpoint_public req.path = false →
      hGet req.headers "X-User-Id" = some uid →
      hGet req.headers "X-Identity-Status" = some "Confirmed" →
      hGet req.headers "X-Auth-Token" = none →
      hGet req.headers "X-Storage-Token" = none →
      ∃ ctx : RequestContext,
        AuthInformationHook.before auth conf req =
          Except.ok { req with security_context := some ctx } ∧
        ctx.auth_token = none) := by
  constructor
  · intro auth conf req
    cases he : conf.enable_authentication with
    | false => rw [before_not_enabled auth conf req he]; simp
    | true =>
      cases hp : auth.is_endpoint_public req.path with
      | true => rw [before_public auth conf req he hp]; simp
      | false =>
        cases hu : hGet req.headers "X-User-Id" with
        | none =>
          rw [before_no_user auth conf req he hp hu]
          simp
        | some uid =>
          by_cases hs : hGet req.headers "X-Identity-Status" = some "Confirmed"
          · rw [before_confirmed auth conf req uid he hp hu hs]; simp
          · rw [before_not_confirmed auth conf req uid he hp hu hs]; simp
  · intro auth conf req uid h1 h2 h3 h4 hta hts
    refine ⟨_, before_confirmed auth conf req uid h1 h2 h3 h4, ?_⟩
    simp [hta, hts]

/-- C10 witness: a confirmed request with neither token header still gets
a context, whose `auth_token` is `none`. -/
theorem C10_witness :
    ∃ ctx : RequestContext,
      AuthInformationHook.before ⟨["/public"]⟩ ⟨true, "http://auth"⟩
        ⟨"/v1/bays", [("X-User-Id", "u1"), ("X-Identity-Status", "Confirmed")],
         none, none⟩ =
        Except.ok { path := "/v1/bays",
                    headers := [("X-User-Id", "u1"),
                                ("X-Identity-Status", "Confirmed")],
                    keystone_token_info := none,
                    security_context := some ctx } ∧
      ctx.auth_token = none :=
  C10_no_token_branch_unreachable.2 ⟨["/public"]⟩ ⟨true, "http://auth"⟩
    ⟨"/v1/bays", [("X-User-Id", "u1"), ("X-Identity-Status", "Confirmed")],
     none, none⟩ "u1" rfl (by decide) rfl rfl rfl rfl

/-- C1 counterexample: with the module's own `AUTH` helper (all paths
public) and authentication enabled, a header-free request passes through
with no context attached although its path matched the public-endpoint
set, so `context attached ↔ (authenticated ∨ public path)` fails. -/
theorem C1_counterexample :
    ¬ (contextAttached AUTH ⟨true, "http://auth"⟩
         ⟨"/v1/bays", [], none, none⟩ = true ↔
       (authenticatedB AUTH ⟨true, "http://auth"⟩
          ⟨"/v1/bays", [], none, none⟩ = true ∨
        AUTH.is_endpoint_public "/v1/bays" = true)) := by decide

/-- C1 amended: for a request arriving with no security context, a
RequestContext is attached after resolution if and only if the request was
authenticated — authentication enabled, path not public, `X-User-Id`
present and `X-Identity-Status` exactly `Confirmed`; public-path and
auth-disabled requests pass through with no context. -/
theorem C1_context_iff_authenticated (auth : AuthHelper) (conf : Config)
    (req : Request) (h0 : req.security_context = none) :
    contextAttached auth conf req = true ↔
      authenticatedB auth conf req = true := by
  unfold contextAttached authenticatedB
  cases he : conf.enable_authentication with
  | false => rw [before_not_enabled auth conf req he]; simp [h0]
  | true =>
    cases hp : auth.is_endpoint_public req.path with
    | true => rw [before_public auth conf req he hp]; simp [h0, hp]
    | false =>
      cases hu : hGet req.headers "X-User-Id" with
      | none =>
        rw [before_no_user auth conf req he hp hu]
        simp [hp, hu]
      | some uid =>
        by_cases hs : hGet req.headers "X-Identity-Status" = some "Confirmed"
        · rw [before_confirmed auth conf req uid he hp hu hs]
          simp [hp, hu, hs]
        · rw [before_not_confirmed auth conf req uid he hp hu hs]
          simp [hp, hu, hs]

/-- C1 witness: the amended equivalence at a concrete authenticated
request and at nothing else. -/
theorem C1_witness :
    contextAttached ⟨["/public"]⟩ ⟨true, "http://auth"⟩
      ⟨"/v1/bays", [("X-User-Id", "u1"), ("X-Identity-Status", "Confirmed")],
       none, none⟩ = true ↔
    authenticatedB ⟨["/public"]⟩ ⟨true, "http://auth"⟩
      ⟨"/v1/bays", [("X-User-Id", "u1"), ("X-Identity-Status", "Confirmed")],
       none, none⟩ = true :=
  C1_context_iff_authenticated ⟨["/public"]⟩ ⟨true, "http://auth"⟩
    ⟨"/v1/bays", [("X-User-Id", "u1"), ("X-Identity-Status", "Confirmed")],
     none, none⟩ rfl
